import Mathlib

/-!
Verification development for the consult-llm-mcp server.

This file gives a shallow embedding, in Lean, of the executor abstraction and
backend-selection/session layer of the repository: the JSON and JSON-Lines
output parsing of the CLI executors, the prompt/argument composition of each
executor variant (codex, gemini, agent, cursor, API), the CLI process runner,
the executor resolver with its cache, and the request handler's thread-id
validation. Pure functions of the source are translated to Lean functions;
the effectful boundary (child processes, HTTP, clipboard) is made explicit by
passing the behaviour of the external world (a child-process run, an HTTP
client function) as an argument and by returning a trace of the effect
requests the code would issue.

JavaScript-specific semantics are modelled explicitly:
- truthiness tests on optional strings (a present-but-empty string is falsy),
- the nullish coalescing operator (.. ?? ..) on optional values,
- String.prototype methods startsWith, includes, trim, slice, split, replace,
- JSON.parse as an executable JSON parser returning an optional JSON value.

Where the TypeScript source reads a parsed JSON field through a cast to a
string-typed shape, the embedding reads the field as a string and treats a
value of any other runtime type as absent; no claim in this development
exercises a non-string value in such a field.
-/

namespace ConsultLlm

/-! ## JavaScript string and option primitives -/

/-- Truthiness of an optional string: in JavaScript a missing value and the
empty string are both falsy. -/
def optTruthy : Option String → Bool
  | none => false
  | some s => s ≠ ""

/-- Nullish coalescing on optional values: a ?? b keeps a whenever a is
present (even if falsy), otherwise yields b. -/
def jsNullish (a b : Option String) : Option String :=
  match a with
  | some x => some x
  | none => b

/-- Whitespace recognised by String.prototype.trim (ASCII part plus the
common Unicode space characters; enough for the outputs modelled here). -/
def jsTrimWs (c : Char) : Bool :=
  c = ' ' || c = '\t' || c = '\n' || c = '\r' || c = '\x0b' || c = '\x0c' ||
  c = '\xa0' || c = ' ' || c = ' ' || c = '﻿'

/-- String.prototype.trim, operating on the character list of the string. -/
def jsTrim (s : String) : String :=
  ⟨((s.data.dropWhile jsTrimWs).reverse.dropWhile jsTrimWs).reverse⟩

/-- String.prototype.startsWith with a string argument. -/
def jsStartsWith (s pat : String) : Bool :=
  pat.data.isPrefixOf s.data

/-- Contiguous-sublist test on character lists, scanning left to right. -/
def hasSubList (sub : List Char) : List Char → Bool
  | [] => sub.isPrefixOf []
  | hay@(_ :: t) => sub.isPrefixOf hay || hasSubList sub t

/-- String.prototype.includes with a string argument. -/
def jsIncludes (s sub : String) : Bool :=
  hasSubList sub.data s.data

/-- String.prototype.slice(0, n): the first n characters. -/
def jsSlice (s : String) (n : Nat) : String :=
  ⟨s.data.take n⟩

/-- String.prototype.split with a single-character separator: splits at every
occurrence, keeping empty segments, and yields one (empty) segment for the
empty string. -/
def jsSplitOn (s : String) (sep : Char) : List String :=
  (s.data.foldr
    (fun c acc =>
      match acc with
      | [] => [[c]]
      | g :: gs => if c = sep then [] :: g :: gs else (c :: g) :: gs)
    [[]]).map (fun g => ⟨g⟩)

/-- Replacement of the first occurrence of a pattern in a character list,
following String.prototype.replace with a string pattern. -/
def replaceFirstAux (sub rep : List Char) : List Char → List Char
  | [] => if sub.isPrefixOf [] then rep else []
  | hay@(c :: t) =>
    if sub.isPrefixOf hay then rep ++ hay.drop sub.length
    else c :: replaceFirstAux sub rep t

/-- String.prototype.replace with a string pattern: replaces only the first
occurrence. -/
def jsReplaceFirst (s sub rep : String) : String :=
  ⟨replaceFirstAux sub.data rep.data s.data⟩

/-! ## A JSON value type and an executable model of JSON.parse

Numbers are kept as their source lexeme: no claim in this development
compares numeric values, and keeping the lexeme avoids floating point. -/

/-- JSON values as produced by JSON.parse. -/
inductive Json where
  | null
  | bool (value : Bool)
  | num (lexeme : String)
  | str (value : String)
  | arr (items : List Json)
  | obj (fields : List (String × Json))

/-- Whitespace permitted between JSON tokens. -/
def jsonWs (c : Char) : Bool :=
  c = ' ' || c = '\t' || c = '\n' || c = '\r'

/-- Value of a hexadecimal digit, by code point: digits, then the lowercase
and uppercase letter ranges. -/
def hexVal (c : Char) : Option Nat :=
  let n := c.toNat
  if 48 ≤ n && n ≤ 57 then some (n - 48)
  else if 97 ≤ n && n ≤ 102 then some (n - 87)
  else if 65 ≤ n && n ≤ 70 then some (n - 55)
  else none

/-- Single-character escapes in JSON strings. -/
def jsonEscChar (c : Char) : Option Char :=
  if c = '"' then some '"'
  else if c = '\\' then some '\\'
  else if c = '/' then some '/'
  else if c = 'b' then some '\x08'
  else if c = 'f' then some '\x0c'
  else if c = 'n' then some '\n'
  else if c = 'r' then some '\r'
  else if c = 't' then some '\t'
  else none

/-- Decode a Unicode escape value to a character; values that are not scalar
values (UTF-16 surrogate halves, representable in JavaScript strings but not
in Lean characters) collapse to the zero character, which no modelled output
contains. -/
def codeToChar (n : Nat) : Char :=
  Char.ofNat n

/-- Parse the body of a JSON string after the opening quote, returning the
decoded characters and the rest of the input after the closing quote. -/
def parseStrChars : List Char → Option (List Char × List Char)
  | [] => none
  | '"' :: rest => some ([], rest)
  | '\\' :: 'u' :: h1 :: h2 :: h3 :: h4 :: rest =>
    match hexVal h1, hexVal h2, hexVal h3, hexVal h4 with
    | some v1, some v2, some v3, some v4 =>
      match parseStrChars rest with
      | some (cs, rem) =>
        some (codeToChar (((v1 * 16 + v2) * 16 + v3) * 16 + v4) :: cs, rem)
      | none => none
    | _, _, _, _ => none
  | '\\' :: e :: rest =>
    if e = 'u' then none
    else
      match jsonEscChar e with
      | some d =>
        match parseStrChars rest with
        | some (cs, rem) => some (d :: cs, rem)
        | none => none
      | none => none
  | c :: rest =>
    if c = '\\' then none
    else if c.toNat < 32 then none
    else
      match parseStrChars rest with
      | some (cs, rem) => some (c :: cs, rem)
      | none => none

/-- Parse the digits of a JSON number, returning the accepted lexeme and the
rest. Grammar: minus? int frac? exp? with int either 0 or a nonzero-led
digit run. -/
def parseNumChars (cs : List Char) : Option (List Char × List Char) :=
  let (sign, afterSign) :=
    match cs with
    | '-' :: t => (['-'], t)
    | _ => ([], cs)
  let intDigits := afterSign.takeWhile Char.isDigit
  let afterInt := afterSign.drop intDigits.length
  if intDigits = [] then none
  else if intDigits.length > 1 && intDigits.head? = some '0' then none
  else
    let (frac, afterFrac) :=
      match afterInt with
      | '.' :: t =>
        let ds := t.takeWhile Char.isDigit
        if ds = [] then ([], afterInt) else ('.' :: ds, t.drop ds.length)
      | _ => ([], afterInt)
    if afterInt ≠ afterFrac ∨ frac = [] then
      -- either a fraction was consumed, or there was no dot at all
      let (ex, afterExp) :=
        match afterFrac with
        | e :: t =>
          if e = 'e' ∨ e = 'E' then
            let (es, t2) :=
              match t with
              | s :: t2 => if s = '+' ∨ s = '-' then ([e, s], t2) else ([e], t)
              | [] => ([e], t)
            let ds := t2.takeWhile Char.isDigit
            if ds = [] then ([], afterFrac) else (es ++ ds, t2.drop ds.length)
          else ([], afterFrac)
        | [] => ([], afterFrac)
      some (sign ++ intDigits ++ frac ++ ex, afterExp)
    else none

mutual

/-- Parse a JSON value (fuel-bounded recursion; the fuel chosen by jsonParse
always suffices for inputs it is given). -/
def parseVal : Nat → List Char → Option (Json × List Char)
  | 0, _ => none
  | fuel + 1, input =>
    match input.dropWhile jsonWs with
    | '{' :: rest => parseObjRest fuel rest
    | '[' :: rest => parseArrRest fuel rest
    | '"' :: rest =>
      match parseStrChars rest with
      | some (cs, rem) => some (.str ⟨cs⟩, rem)
      | none => none
    | 't' :: 'r' :: 'u' :: 'e' :: rest => some (.bool true, rest)
    | 'f' :: 'a' :: 'l' :: 's' :: 'e' :: rest => some (.bool false, rest)
    | 'n' :: 'u' :: 'l' :: 'l' :: rest => some (.null, rest)
    | other =>
      match parseNumChars other with
      | some (lexeme, rem) => some (.num ⟨lexeme⟩, rem)
      | none => none

/-- Parse the remainder of a JSON object after the opening brace. -/
def parseObjRest : Nat → List Char → Option (Json × List Char)
  | 0, _ => none
  | fuel + 1, cs =>
    match cs.dropWhile jsonWs with
    | '}' :: rest => some (.obj [], rest)
    | cs2 =>
      match parseMembers fuel cs2 with
      | some (kvs, rem) => some (.obj kvs, rem)
      | none => none

/-- Parse one or more key-value members of a JSON object, consuming the
closing brace. -/
def parseMembers : Nat → List Char → Option (List (String × Json) × List Char)
  | 0, _ => none
  | fuel + 1, cs =>
    match cs.dropWhile jsonWs with
    | '"' :: rest =>
      match parseStrChars rest with
      | some (key, afterKey) =>
        match afterKey.dropWhile jsonWs with
        | ':' :: afterColon =>
          match parseVal fuel afterColon with
          | some (v, afterVal) =>
            match afterVal.dropWhile jsonWs with
            | ',' :: next =>
              match parseMembers fuel next with
              | some (kvs, rem) => some ((⟨key⟩, v) :: kvs, rem)
              | none => none
            | '}' :: rest2 => some ([(⟨key⟩, v)], rest2)
            | _ => none
          | none => none
        | _ => none
      | none => none
    | _ => none

/-- Parse the remainder of a JSON array after the opening bracket. -/
def parseArrRest : Nat → List Char → Option (Json × List Char)
  | 0, _ => none
  | fuel + 1, cs =>
    match cs.dropWhile jsonWs with
    | ']' :: rest => some (.arr [], rest)
    | cs2 =>
      match parseElems fuel cs2 with
      | some (xs, rem) => some (.arr xs, rem)
      | none => none

/-- Parse one or more array elements, consuming the closing bracket. -/
def parseElems : Nat → List Char → Option (List Json × List Char)
  | 0, _ => none
  | fuel + 1, cs =>
    match parseVal fuel cs with
    | some (v, afterVal) =>
      match afterVal.dropWhile jsonWs with
      | ',' :: next =>
        match parseElems fuel next with
        | some (xs, rem) => some (v :: xs, rem)
        | none => none
      | ']' :: rest => some ([v], rest)
      | _ => none
    | none => none

end

/-- Executable model of JSON.parse: a complete parse of the input as one JSON
document, with surrounding whitespace allowed; any failure yields none (the
thrown SyntaxError). -/
def jsonParse (s : String) : Option Json :=
  match parseVal (4 * s.data.length + 4) s.data with
  | some (j, rest) => if rest.dropWhile jsonWs = [] then some j else none
  | none => none

/-- Property read on a parsed JSON value: the value stored under a key of an
object (later duplicate keys win, as in JavaScript), absent on any non-object
base. -/
def jsonObjField (j : Json) (key : String) : Option Json :=
  match j with
  | .obj kvs => kvs.foldl (fun acc kv => if kv.1 = key then some kv.2 else acc) none
  | _ => none

/-- Property read through the string-typed casts of the source: yields the
field only when it holds a string. -/
def jsonStrField (j : Json) (key : String) : Option String :=
  match jsonObjField j key with
  | some (.str s) => some s
  | _ => none

/-! ## CLI process runner (cli-runner.ts)

A child process run is modelled by the observable behaviour of the spawned
process: the stdout/stderr data events it emits and the terminal event that
settles the promise (a close event carrying the exit code, or a spawn error).
The wall-clock duration is carried as data. -/

/-- One data event emitted by the child process. -/
inductive ChildEvent where
  | out (chunk : String)
  | err (chunk : String)
deriving DecidableEq

/-- The event that settles the runner promise first: a close with an exit
code (null when the process was killed by a signal), or a spawn failure. -/
inductive ChildTermination where
  | close (code : Option Int)
  | spawnFail (message : String)
deriving DecidableEq

/-- The behaviour of one spawned child process. -/
structure ChildRun where
  events : List ChildEvent
  termination : ChildTermination
  duration : Nat
deriving DecidableEq

/-- Accumulated stdout buffer (concatenation of the data chunks). -/
def collectOut (events : List ChildEvent) : String :=
  String.join (events.filterMap fun e =>
    match e with
    | .out s => some s
    | .err _ => none)

/-- Accumulated stderr buffer. -/
def collectErr (events : List ChildEvent) : String :=
  String.join (events.filterMap fun e =>
    match e with
    | .out _ => none
    | .err s => some s)

/-- Result shape resolved by the runner (interface CliResult). -/
structure CliResult where
  stdout : String
  stderr : String
  code : Option Int
  duration : Nat
deriving DecidableEq

/-- Spawn-failure error message of the runner. -/
def spawnFailMsg (command msg : String) : String :=
  "Failed to spawn " ++ command ++ " CLI. Is it installed and in PATH? Error: " ++ msg

/-- Model of runCli in buffered mode: a close event resolves with the
buffered output and the exit code, whatever the code is; only a spawn
failure rejects. (The optional line-streaming mode, which hands each stdout
line to a callback and leaves the buffered stdout empty, is not used by any
executor and is not modelled.) -/
def runCli (command : String) (args : List String) (run : ChildRun) :
    Except String CliResult :=
  let _ := args
  match run.termination with
  | .spawnFail msg => .error (spawnFailMsg command msg)
  | .close code =>
    .ok ⟨collectOut run.events, collectErr run.events, code, run.duration⟩

/-! ## Shared executor shapes (executors/types.ts) -/

/-- Capability record declared by every executor. -/
structure LlmExecutorCapabilities where
  isCli : Bool
  supportsThreads : Bool
  supportsFileRefs : Bool
deriving DecidableEq

/-- Token usage counters of the OpenAI-compatible wire format. -/
structure CompletionUsage where
  prompt_tokens : Nat
  completion_tokens : Nat
  total_tokens : Nat
deriving DecidableEq

/-- Result of an execute call: response text, usage (API executors only) and
an optional thread id. -/
structure ExecOut where
  response : String
  usage : Option CompletionUsage
  threadId : Option String
deriving DecidableEq

/-! ## Codex executor (executors/codex-cli.ts)

The prompt-relative rewriting of file paths (relative(process.cwd(), path))
is abstracted by a path-mapping function rel passed explicitly. -/

/-- Structured outcome of parsing the codex JSON-Lines output. -/
structure CodexParsed where
  threadId : Option String
  response : String
deriving DecidableEq

/-- Classification of one line of codex output, mirroring the body of the
for-loop of parseCodexJsonl: blank and non-JSON lines are skipped, a
thread.started event with a (truthy) thread id updates the thread id, an
item.completed event whose item is an agent_message with a (truthy) text
contributes a message; every other event is skipped. -/
inductive CodexLineView where
  | skip
  | thread (id : String)
  | message (text : String)
deriving DecidableEq

/-- View of one output line through the codex event cast
(type, thread_id, item.type, item.text fields). -/
def codexLineView (line : String) : CodexLineView :=
  let trimmed := jsTrim line
  if trimmed = "" then .skip
  else
    match jsonParse trimmed with
    | none => .skip
    | some event =>
      if jsonStrField event "type" = some "thread.started" then
        match jsonStrField event "thread_id" with
        | some tid => if tid = "" then .skip else .thread tid
        | none => .skip
      else if jsonStrField event "type" = some "item.completed" then
        match jsonObjField event "item" with
        | some item =>
          if jsonStrField item "type" = some "agent_message" then
            match jsonStrField item "text" with
            | some t => if t = "" then .skip else .message t
            | none => .skip
          else .skip
        | none => .skip
      else .skip

/-- Loop body of parseCodexJsonl: fold state is the latest thread id and the
message texts pushed so far. -/
def codexLineStep (acc : Option String × List String) (line : String) :
    Option String × List String :=
  match codexLineView line with
  | .skip => acc
  | .thread tid => (some tid, acc.2)
  | .message t => (acc.1, acc.2 ++ [t])

/-- Parse a list of output lines as codex JSON-Lines events. -/
def parseCodexJsonlLines (lines : List String) : CodexParsed :=
  let acc := lines.foldl codexLineStep (none, [])
  ⟨acc.1, String.intercalate "\n" acc.2⟩

/-- parseCodexJsonl: split the raw stdout on newlines and scan every line
independently. -/
def parseCodexJsonl (output : String) : CodexParsed :=
  parseCodexJsonlLines (jsSplitOn output '\n')

/-- File-reference suffix of the codex executor: paths become @relative
tokens joined by spaces, appended after a Files: marker. -/
def codexAppendFiles (rel : String → String) (text : String)
    (filePaths : Option (List String)) : String :=
  match filePaths with
  | none => text
  | some [] => text
  | some fps =>
    text ++ "\n\nFiles: " ++ String.intercalate " " (fps.map fun p => "@" ++ rel p)

/-- Composed prompt of the codex executor: on resume the files are included
but the system prompt is skipped. -/
def codexFullPrompt (rel : String → String) (prompt systemPrompt : String)
    (filePaths : Option (List String)) (threadId : Option String) : String :=
  let message := codexAppendFiles rel prompt filePaths
  if optTruthy threadId then message else systemPrompt ++ "\n\n" ++ message

/-- Optional reasoning-effort configuration override flags. -/
def codexEffortArgs (reasoningEffort : Option String) : List String :=
  if optTruthy reasoningEffort then
    ["-c", "model_reasoning_effort=\"" ++ reasoningEffort.getD "" ++ "\""]
  else []

/-- Argument vector of the codex CLI: fresh turns use the exec subcommand,
resumed turns exec resume with the prior thread id. -/
def codexArgs (reasoningEffort : Option String) (model : String)
    (threadId : Option String) (fullPrompt : String) : List String :=
  if optTruthy threadId then
    ["exec", "resume", "--json", "--skip-git-repo-check"] ++
      codexEffortArgs reasoningEffort ++
      ["-m", model, threadId.getD "", fullPrompt]
  else
    ["exec", "--json", "--skip-git-repo-check"] ++
      codexEffortArgs reasoningEffort ++ ["-m", model, fullPrompt]

/-- Close-event handling of the codex executor. -/
def codexClose (res : CliResult) : Except String ExecOut :=
  if res.code = some 0 then
    let parsed := parseCodexJsonl res.stdout
    if parsed.response = "" then
      .error "No agent_message found in Codex JSONL output"
    else
      .ok ⟨parsed.response, none, parsed.threadId⟩
  else
    .error ("Codex CLI exited with code " ++ toString (res.code.getD (-1)) ++
      ". Error: " ++ jsTrim res.stderr)

/-- Execute of the codex executor, given the behaviour of the spawned
process. -/
def codexExecute (reasoningEffort : Option String) (rel : String → String)
    (prompt model systemPrompt : String) (filePaths : Option (List String))
    (threadId : Option String) (run : ChildRun) : Except String ExecOut :=
  let fullPrompt := codexFullPrompt rel prompt systemPrompt filePaths threadId
  match runCli "codex" (codexArgs reasoningEffort model threadId fullPrompt) run with
  | .error e => .error e
  | .ok res => codexClose res

/-! ## Gemini executor (executors/gemini-cli.ts) -/

/-- parseGeminiJson: the whole stdout is one JSON document with optional
session_id and response fields; none models a thrown parse error (including
a property access on a null document). -/
def parseGeminiJson (output : String) : Option (Option String × String) :=
  match jsonParse output with
  | none => none
  | some .null => none
  | some j => some (jsonStrField j "session_id", (jsonStrField j "response").getD "")

/-- File-reference suffix of the gemini executor (same @relative form as
codex). -/
def geminiAppendFiles (rel : String → String) (text : String)
    (filePaths : Option (List String)) : String :=
  match filePaths with
  | none => text
  | some [] => text
  | some fps =>
    text ++ "\n\nFiles: " ++ String.intercalate " " (fps.map fun p => "@" ++ rel p)

/-- Composed prompt of the gemini executor: files always included, system
prompt only on a fresh turn. -/
def geminiMessage (rel : String → String) (prompt systemPrompt : String)
    (filePaths : Option (List String)) (threadId : Option String) : String :=
  let messageWithFiles := geminiAppendFiles rel prompt filePaths
  if optTruthy threadId then messageWithFiles
  else systemPrompt ++ "\n\n" ++ messageWithFiles

/-- Argument vector of the gemini CLI, with the resume flag on resumed
turns. -/
def geminiArgs (model : String) (threadId : Option String) (message : String) :
    List String :=
  ["-m", model, "-o", "json"] ++
    (if optTruthy threadId then ["-r", threadId.getD ""] else []) ++
    ["-p", message]

/-- Quota-exhaustion error message of the gemini executor. -/
def geminiQuotaMsg (stderr : String) : String :=
  "Gemini quota exceeded. Consider using gemini-2.0-flash model. Error: " ++
    jsTrim stderr

/-- Generic non-zero-exit error message of the gemini executor. -/
def geminiExitMsg (code : Option Int) (stderr : String) : String :=
  "Gemini CLI exited with code " ++ toString (code.getD (-1)) ++ ". Error: " ++
    jsTrim stderr

/-- Close-event handling of the gemini executor. -/
def geminiClose (res : CliResult) : Except String ExecOut :=
  if res.code = some 0 then
    match parseGeminiJson res.stdout with
    | none => .error ("Failed to parse Gemini JSON output: " ++ jsSlice res.stdout 200)
    | some (sessionId, response) =>
      if response = "" then .error "No response found in Gemini JSON output"
      else .ok ⟨response, none, sessionId⟩
  else
    if jsIncludes res.stderr "RESOURCE_EXHAUSTED" then
      .error (geminiQuotaMsg res.stderr)
    else
      .error (geminiExitMsg res.code res.stderr)

/-- Execute of the gemini executor. -/
def geminiExecute (rel : String → String) (prompt model systemPrompt : String)
    (filePaths : Option (List String)) (threadId : Option String)
    (run : ChildRun) : Except String ExecOut :=
  let message := geminiMessage rel prompt systemPrompt filePaths threadId
  match runCli "gemini" (geminiArgs model threadId message) run with
  | .error e => .error e
  | .ok res => geminiClose res

/-! ## Agent executor (executors/agent-cli.ts)

This executor spawns the agent CLI directly (not through runCli); the close
and error handling mirror the runner. On a resumed turn the message is the
bare user prompt: neither the system prompt nor the file list is included. -/

/-- parseAgentJson: one JSON document with optional session_id and result
fields. -/
def parseAgentJson (output : String) : Option (Option String × String) :=
  match jsonParse output with
  | none => none
  | some .null => none
  | some j => some (jsonStrField j "session_id", (jsonStrField j "result").getD "")

/-- Full first-turn prompt of the agent executor: system prompt, user prompt
and a human-readable file list. -/
def agentBuildFullPrompt (rel : String → String) (prompt systemPrompt : String)
    (filePaths : Option (List String)) : String :=
  let base := systemPrompt ++ "\n\n" ++ prompt
  match filePaths with
  | none => base
  | some [] => base
  | some fps =>
    base ++ "\n\nPlease read the following files for context:\n" ++
      String.intercalate "\n" (fps.map fun p => "- " ++ rel p)

/-- Message passed to the agent CLI: the bare prompt on resume, the full
prompt otherwise. -/
def agentMessage (rel : String → String) (prompt systemPrompt : String)
    (filePaths : Option (List String)) (threadId : Option String) : String :=
  if optTruthy threadId then prompt
  else agentBuildFullPrompt rel prompt systemPrompt filePaths

/-- Argument vector of the agent CLI. -/
def agentArgs (model : String) (threadId : Option String) (message : String) :
    List String :=
  ["--print", "--trust", "--output-format", "json", "--mode", "ask",
    "--model", model] ++
    (if optTruthy threadId then ["--resume", threadId.getD ""] else []) ++
    [message]

/-- Close-event handling of the agent executor; the returned thread id is the
session id of the output (with no fallback to the request thread id). -/
def agentClose (res : CliResult) : Except String ExecOut :=
  if res.code = some 0 then
    match parseAgentJson res.stdout with
    | none => .error ("Failed to parse Agent CLI JSON output: " ++ jsSlice res.stdout 200)
    | some (sessionId, response) =>
      if response = "" then .error "No result found in Agent CLI JSON output"
      else .ok ⟨response, none, sessionId⟩
  else
    .error ("Agent CLI exited with code " ++ toString (res.code.getD (-1)) ++
      ". Error: " ++ jsTrim res.stderr)

/-- Execute of the agent executor. -/
def agentExecute (rel : String → String) (prompt model systemPrompt : String)
    (filePaths : Option (List String)) (threadId : Option String)
    (run : ChildRun) : Except String ExecOut :=
  let message := agentMessage rel prompt systemPrompt filePaths threadId
  let _ := agentArgs model threadId message
  match run.termination with
  | .spawnFail msg =>
    .error ("Failed to spawn agent CLI. Is it installed and in PATH? Error: " ++ msg)
  | .close code =>
    agentClose ⟨collectOut run.events, collectErr run.events, code, run.duration⟩

/-! ## Cursor executor (cursor-cli.ts)

Unlike the agent executor, the cursor executor appends the file list to the
prompt before deciding between fresh and resumed composition, so files are
resent on resume; and the returned thread id falls back to the request
thread id when the output carries no session id. -/

/-- parseCursorJson: one JSON document with optional session_id and result
fields. -/
def parseCursorJson (output : String) : Option (Option String × String) :=
  match jsonParse output with
  | none => none
  | some .null => none
  | some j => some (jsonStrField j "session_id", (jsonStrField j "result").getD "")

/-- File-list suffix of the cursor executor. -/
def cursorAppendFiles (rel : String → String) (text : String)
    (filePaths : Option (List String)) : String :=
  match filePaths with
  | none => text
  | some [] => text
  | some fps =>
    text ++ "\n\nPlease read the following files for context:\n" ++
      String.intercalate "\n" (fps.map fun p => "- " ++ rel p)

/-- Composed prompt of the cursor executor. -/
def cursorMessage (rel : String → String) (prompt systemPrompt : String)
    (filePaths : Option (List String)) (threadId : Option String) : String :=
  let messageWithFiles := cursorAppendFiles rel prompt filePaths
  if optTruthy threadId then messageWithFiles
  else systemPrompt ++ "\n\n" ++ messageWithFiles

/-- Model-name rewriting of the cursor executor: strip a -preview suffix and
append the reasoning effort to codex-family models. -/
def cursorModelName (reasoningEffort : Option String) (model : String) : String :=
  let cursorModel := jsReplaceFirst model "-preview" ""
  if optTruthy reasoningEffort && jsIncludes cursorModel "-codex" then
    cursorModel ++ "-" ++ reasoningEffort.getD ""
  else cursorModel

/-- Argument vector of the cursor-agent CLI. -/
def cursorArgs (reasoningEffort : Option String) (model : String)
    (threadId : Option String) (message : String) : List String :=
  ["--print", "--trust", "--output-format", "json", "--mode", "ask",
    "--model", cursorModelName reasoningEffort model] ++
    (if optTruthy threadId then ["--resume", threadId.getD ""] else []) ++
    [message]

/-- Close-event handling of the cursor executor, with the request thread id
as fallback when the output has no session id. -/
def cursorClose (threadId : Option String) (res : CliResult) :
    Except String ExecOut :=
  if res.code = some 0 then
    match parseCursorJson res.stdout with
    | none => .error ("Failed to parse Cursor CLI JSON output: " ++ jsSlice res.stdout 200)
    | some (sessionId, response) =>
      if response = "" then .error "No result found in Cursor CLI JSON output"
      else .ok ⟨response, none, jsNullish sessionId threadId⟩
  else
    .error ("Cursor CLI exited with code " ++ toString (res.code.getD (-1)) ++
      ". Error: " ++ jsTrim res.stderr)

/-- Execute of the cursor executor. -/
def cursorExecute (reasoningEffort : Option String) (rel : String → String)
    (prompt model systemPrompt : String) (filePaths : Option (List String))
    (threadId : Option String) (run : ChildRun) : Except String ExecOut :=
  let message := cursorMessage rel prompt systemPrompt filePaths threadId
  let _ := cursorArgs reasoningEffort model threadId message
  match run.termination with
  | .spawnFail msg =>
    .error ("Failed to spawn cursor-agent CLI. Is it installed and in PATH? Error: " ++ msg)
  | .close code =>
    cursorClose threadId ⟨collectOut run.events, collectErr run.events, code, run.duration⟩

/-! ## API executor (executors/api.ts)

The HTTP client is abstracted by a function from the chat-completion request
body to the completion it returns; the warning diagnostic and the issued
request are part of the returned record, making the observable side effects
of one execute call explicit. -/

/-- One chat message of the request body. -/
structure ChatMessage where
  role : String
  content : String
deriving DecidableEq

/-- Chat-completion request body. -/
structure ChatRequest where
  model : String
  messages : List ChatMessage
deriving DecidableEq

/-- Message part of a completion choice (content may be null). -/
structure CompletionMessage where
  content : Option String
deriving DecidableEq

/-- One completion choice (message may be absent at runtime). -/
structure CompletionChoice where
  message : Option CompletionMessage
deriving DecidableEq

/-- A chat completion returned by the client. -/
structure ChatCompletion where
  choices : List CompletionChoice
  usage : Option CompletionUsage
deriving DecidableEq

/-- Observable outcome of one API execute call. -/
structure ApiExecOut where
  warnings : List String
  request : ChatRequest
  result : Except String ExecOut

/-- Warning diagnostic emitted when file paths reach the API executor. -/
def apiWarning (model : String) : String :=
  "Warning: File paths were provided but are not supported by the API executor for model " ++
    model ++ ". They will be ignored."

/-- The two-message request body issued by the API executor. -/
def apiRequest (prompt model systemPrompt : String) : ChatRequest :=
  ⟨model, [⟨"system", systemPrompt⟩, ⟨"user", prompt⟩]⟩

/-- Content of the first completion choice, through the optional chain
choices[0]?.message?.content. -/
def completionContent (c : ChatCompletion) : Option String :=
  (c.choices.head?.bind (·.message)).bind (·.content)

/-- Truthiness of the filePaths argument as tested by the source
(filePaths && filePaths.length > 0). -/
def filesNonempty : Option (List String) → Bool
  | none => false
  | some fps => fps.length > 0

/-- Execute of the API executor: warn on file paths, issue the two-message
completion request, fail on missing or empty content, and pass the usage
counters through (null when the completion carries none). -/
def apiExecute (client : ChatRequest → ChatCompletion)
    (prompt model systemPrompt : String) (filePaths : Option (List String)) :
    ApiExecOut :=
  let warnings := if filesNonempty filePaths then [apiWarning model] else []
  let req := apiRequest prompt model systemPrompt
  let completion := client req
  match completionContent completion with
  | some r =>
    if r = "" then ⟨warnings, req, .error "No response from the model via API"⟩
    else ⟨warnings, req, .ok ⟨r, completion.usage, none⟩⟩
  | none => ⟨warnings, req, .error "No response from the model via API"⟩

/-! ## Model catalog (schema.ts) -/

/-- The model catalog. -/
def ALL_MODELS : List String :=
  ["o3", "gemini-2.5-pro", "gemini-3-pro-preview", "deepseek-reasoner",
   "gpt-5.2", "gpt-5.2-codex", "gpt-5.1-codex-max", "gpt-5.1-codex",
   "gpt-5.1-codex-mini", "gpt-5.1"]

/-! ## Backend resolver (llm.ts, createExecutorProvider)

The module-level caches become an explicit resolver state threaded through
the resolution function. Executor construction is given an allocation
counter so that referential identity of the returned instances (the same
object from the cache versus a freshly constructed one) is observable as
equality of the allocation id. -/

/-- Per-family backend preference (the openaiMode / geminiMode configuration
values, a union of the two string literals in the source). -/
inductive BackendMode where
  | api
  | cli
deriving DecidableEq

/-- The string form of a backend preference, as spliced into the cache
key. -/
def modeStr : BackendMode → String
  | .api => "api"
  | .cli => "cli"

/-- Configuration consumed by the resolver. -/
structure LlmConfig where
  openaiApiKey : Option String
  geminiApiKey : Option String
  deepseekApiKey : Option String
  openaiMode : BackendMode
  geminiMode : BackendMode
deriving DecidableEq

/-- An authenticated HTTP client value (the OpenAI constructor call). -/
structure OpenAIClient where
  apiKey : String
  baseURL : Option String
deriving DecidableEq

/-- The concrete executor variant constructed by the resolver. -/
inductive ExecutorKind where
  | codexCli
  | geminiCli
  | api (client : OpenAIClient)
deriving DecidableEq

/-- A constructed executor instance; the id is an allocation counter
modelling referential identity. -/
structure ExecutorInst where
  kind : ExecutorKind
  id : Nat
deriving DecidableEq

/-- The two module-level caches plus the allocation counter. -/
structure ResolverState where
  executorCache : List (String × ExecutorInst)
  clientCache : List (String × OpenAIClient)
  nextId : Nat
deriving DecidableEq

/-- Resolver state at process start: both caches empty. -/
def initResolverState : ResolverState := ⟨[], [], 0⟩

/-- Lazily constructed OpenAI client: cached under the openai key, failing
when the credential is absent (or empty, which is falsy). -/
def getOpenAIClient (cfg : LlmConfig) (s : ResolverState) :
    Except String (OpenAIClient × ResolverState) :=
  match s.clientCache.lookup "openai" with
  | some c => .ok (c, s)
  | none =>
    if optTruthy cfg.openaiApiKey then
      let c : OpenAIClient := ⟨cfg.openaiApiKey.getD "", none⟩
      .ok (c, { s with clientCache := ("openai", c) :: s.clientCache })
    else
      .error "OPENAI_API_KEY environment variable is required for OpenAI models in API mode"

/-- Lazily constructed DeepSeek client (OpenAI-compatible, different base
URL). -/
def getDeepseekClient (cfg : LlmConfig) (s : ResolverState) :
    Except String (OpenAIClient × ResolverState) :=
  match s.clientCache.lookup "deepseek" with
  | some c => .ok (c, s)
  | none =>
    if optTruthy cfg.deepseekApiKey then
      let c : OpenAIClient := ⟨cfg.deepseekApiKey.getD "", some "https://api.deepseek.com"⟩
      .ok (c, { s with clientCache := ("deepseek", c) :: s.clientCache })
    else
      .error "DEEPSEEK_API_KEY environment variable is required for DeepSeek models"

/-- Lazily constructed Gemini API client (OpenAI-compatible endpoint). -/
def getGeminiApiClient (cfg : LlmConfig) (s : ResolverState) :
    Except String (OpenAIClient × ResolverState) :=
  match s.clientCache.lookup "geminiApi" with
  | some c => .ok (c, s)
  | none =>
    if optTruthy cfg.geminiApiKey then
      let c : OpenAIClient :=
        ⟨cfg.geminiApiKey.getD "", some "https://generativelanguage.googleapis.com/v1beta/openai/"⟩
      .ok (c, { s with clientCache := ("geminiApi", c) :: s.clientCache })
    else
      .error "GEMINI_API_KEY environment variable is required for Gemini models in API mode"

/-- Cache key of the resolver: the model id, with the configured backend
preference appended for the model families that support more than one
backend. -/
def cacheKey (cfg : LlmConfig) (model : String) : String :=
  model ++
    (if jsStartsWith model "gpt-" then "-" ++ modeStr cfg.openaiMode else "") ++
    (if jsStartsWith model "gemini-" then "-" ++ modeStr cfg.geminiMode else "")

/-- Construct a fresh executor instance and store it in the cache under the
given key. -/
def insertExecutor (key : String) (kind : ExecutorKind) (s : ResolverState) :
    ExecutorInst × ResolverState :=
  let e : ExecutorInst := ⟨kind, s.nextId⟩
  (e, { s with executorCache := (key, e) :: s.executorCache, nextId := s.nextId + 1 })

/-- The resolver: look the cache key up, and on a miss pick the executor
variant by provider-family prefix and backend preference, construct it and
cache it. An unrecognised family is a fatal configuration error. -/
def getExecutorForModel (cfg : LlmConfig) (model : String) (s : ResolverState) :
    Except String (ExecutorInst × ResolverState) :=
  match s.executorCache.lookup (cacheKey cfg model) with
  | some e => .ok (e, s)
  | none =>
    if jsStartsWith model "gpt-" then
      match cfg.openaiMode with
      | .cli => .ok (insertExecutor (cacheKey cfg model) .codexCli s)
      | .api =>
        match getOpenAIClient cfg s with
        | .error e => .error e
        | .ok (c, s1) => .ok (insertExecutor (cacheKey cfg model) (.api c) s1)
    else if jsStartsWith model "deepseek-" then
      match getDeepseekClient cfg s with
      | .error e => .error e
      | .ok (c, s1) => .ok (insertExecutor (cacheKey cfg model) (.api c) s1)
    else if jsStartsWith model "gemini-" then
      match cfg.geminiMode with
      | .cli => .ok (insertExecutor (cacheKey cfg model) .geminiCli s)
      | .api =>
        match getGeminiApiClient cfg s with
        | .error e => .error e
        | .ok (c, s1) => .ok (insertExecutor (cacheKey cfg model) (.api c) s1)
    else
      .error ("Unable to determine LLM provider for model: " ++ model)

/-! ## Request handler (server.ts, handleConsultLlm)

The embedding covers the control flow from a successfully parsed request to
either the validation error, the clipboard hand-off, or the query call. The
collaborators with no algorithmic content here (file reading, git diff,
prompt assembly, path resolution, system-prompt selection, the clipboard,
and queryLlm itself) are passed in as functions; the spawn/HTTP-capable
collaborators (clipboard, queryLlm) additionally leave an effect event in
the returned trace, so that which external calls a run performs is part of
the result. Logging collaborators never participate in control flow and are
not modelled. -/

/-- A context file produced by processFiles. -/
structure ContextFile where
  path : String
  content : String

/-- Parsed git_diff request argument. -/
structure GitDiffArgs where
  repoPath : Option String
  files : List String
  baseRef : String

/-- The handler's view of a resolved executor: its capability record. -/
structure ExecView where
  capabilities : LlmExecutorCapabilities

/-- A successfully parsed consult_llm request (output of the zod schema),
plus the flag recording whether the raw arguments carried a model key. -/
structure HandlerArgs where
  files : Option (List String)
  prompt : String
  gitDiff : Option GitDiffArgs
  webMode : Bool
  model : String
  threadId : Option String
  taskMode : String
  modelProvided : Bool

/-- Effect requests issued to spawn/HTTP-capable collaborators. -/
inductive HandlerEffect where
  | llmQuery (prompt model : String) (filePaths : Option (List String))
      (threadId : Option String) (taskMode : String)
  | clipboardCopy (text : String)
deriving DecidableEq

/-- Result of queryLlm. -/
structure QueryOut where
  response : String
  costInfo : String
  threadId : Option String

/-- The handler's collaborators. -/
structure HandlerDeps where
  defaultModel : Option String
  resolve : String → Except String ExecView
  processFiles : List String → List ContextFile
  generateGitDiff : GitDiffArgs → String
  buildPrompt : String → List ContextFile → Option String → String
  resolvePath : String → String
  getSystemPrompt : Bool → String → String
  copyToClipboard : String → Except String Unit
  queryLlm : String → String → ExecView → Option (List String) → Option String →
    String → Except String QueryOut

/-- Effective model of a request: the parsed model when the caller supplied
one, otherwise the configured default (falling back to the schema
default). -/
def handlerModel (deps : HandlerDeps) (args : HandlerArgs) : String :=
  if args.modelProvided then args.model else deps.defaultModel.getD args.model

/-- The request-validation error for a thread id sent to a backend without
thread support. -/
def threadUnsupportedMsg (model : String) : String :=
  "thread_id is not supported by the configured backend for model: " ++ model

/-- The request handler, from a parsed request to the effect trace and the
outcome. -/
def handleConsultLlm (deps : HandlerDeps) (args : HandlerArgs) :
    List HandlerEffect × Except String String :=
  let model := handlerModel deps args
  match deps.resolve model with
  | .error e => ([], .error e)
  | .ok executor =>
    if optTruthy args.threadId && !executor.capabilities.supportsThreads then
      ([], .error (threadUnsupportedMsg model))
    else
      let promptAndFiles :=
        if args.webMode || !executor.capabilities.supportsFileRefs then
          let contextFiles :=
            match args.files with
            | some fs => deps.processFiles fs
            | none => []
          let gitDiffOutput := args.gitDiff.map deps.generateGitDiff
          (deps.buildPrompt args.prompt contextFiles gitDiffOutput,
            (none : Option (List String)))
        else
          let filePaths := args.files.map fun fs => fs.map deps.resolvePath
          let gitDiffOutput := args.gitDiff.map deps.generateGitDiff
          let prompt :=
            match gitDiffOutput with
            | some g =>
              if g = "" then args.prompt
              else "## Git Diff\n```diff\n" ++ g ++ "\n```\n\n" ++ args.prompt
            | none => args.prompt
          (prompt, filePaths)
      let prompt := promptAndFiles.1
      let filePaths := promptAndFiles.2
      if args.webMode then
        let systemPrompt := deps.getSystemPrompt executor.capabilities.isCli args.taskMode
        let fullPrompt :=
          "# System Prompt\n\n" ++ systemPrompt ++ "\n\n# User Prompt\n\n" ++ prompt
        match deps.copyToClipboard fullPrompt with
        | .error e => ([.clipboardCopy fullPrompt], .error e)
        | .ok _ =>
          let baseMsg :=
            "✓ Prompt copied to clipboard!\n\nPlease paste it into your browser-based LLM service and share the response here before I proceed with any implementation."
          let responseMessage :=
            match filePaths with
            | some fps =>
              if fps.length > 0 then
                baseMsg ++ "\n\nNote: File paths were included:\n" ++
                  String.intercalate "\n" (fps.map fun p => "  - " ++ p)
              else baseMsg
            | none => baseMsg
          ([.clipboardCopy fullPrompt], .ok responseMessage)
      else
        let queryEffect : HandlerEffect :=
          .llmQuery prompt model filePaths args.threadId args.taskMode
        match deps.queryLlm prompt model executor filePaths args.threadId args.taskMode with
        | .error e => ([queryEffect], .error e)
        | .ok q =>
          let responseText :=
            if optTruthy q.threadId then
              "[thread_id:" ++ q.threadId.getD "" ++ "]\n\n" ++ q.response
            else q.response
          ([queryEffect], .ok responseText)

/-! ## Derived definitions used by the statements -/

/-- The texts of the (nonempty-text) agent_message events among a list of
output lines, in order. -/
def codexMsgTexts (lines : List String) : List String :=
  lines.filterMap fun l =>
    match codexLineView l with
    | .message t => some t
    | _ => none

/-- The thread id accumulated over a list of output lines (the last
thread.started event wins), starting from a default. -/
def codexLastThread (lines : List String) (dflt : Option String) : Option String :=
  lines.foldl
    (fun acc l =>
      match codexLineView l with
      | .thread t => some t
      | _ => acc)
    dflt

/-- The constraint the resolver's branching places on the executor variant
served for a model under a configuration: a gpt model gets the codex CLI
under the cli preference and an API executor under the api preference, a
gemini model the gemini CLI or an API executor, and a deepseek model always
an API executor. -/
def familyKindOk (cfg : LlmConfig) (model : String) (k : ExecutorKind) : Prop :=
  (jsStartsWith model "gpt-" = true →
    (cfg.openaiMode = .cli → k = .codexCli) ∧
    (cfg.openaiMode = .api → ∃ c, k = .api c)) ∧
  (jsStartsWith model "gemini-" = true →
    (cfg.geminiMode = .cli → k = .geminiCli) ∧
    (cfg.geminiMode = .api → ∃ c, k = .api c)) ∧
  (jsStartsWith model "gpt-" = false → jsStartsWith model "gemini-" = false →
    jsStartsWith model "deepseek-" = true → ∃ c, k = .api c)

/-- Invariant of the executor cache: every entry reachable under some
configuration and model satisfies the variant constraint of that
configuration and model. -/
def cacheConsistent (s : ResolverState) : Prop :=
  ∀ cfg model e, s.executorCache.lookup (cacheKey cfg model) = some e →
    familyKindOk cfg model e.kind

/-- Whether resolution of a model succeeds from a given state. -/
def resolvesFrom (cfg : LlmConfig) (model : String) (s : ResolverState) : Bool :=
  match getExecutorForModel cfg model s with
  | .ok _ => true
  | .error _ => false

/-! ## Concrete fixtures for witnesses and counterexamples -/

/-- A configuration with every credential present and both families on the
cli preference. -/
def cfgCliCli : LlmConfig :=
  ⟨some "sk-openai", some "sk-gemini", some "sk-deepseek", .cli, .cli⟩

/-- Handler collaborators whose resolver serves an executor without thread
support (the API capability set) and whose externals are inert stubs. -/
def handlerDepsNoThreads : HandlerDeps where
  defaultModel := none
  resolve := fun _ => .ok ⟨⟨false, false, false⟩⟩
  processFiles := fun _ => []
  generateGitDiff := fun _ => ""
  buildPrompt := fun p _ _ => p
  resolvePath := fun p => p
  getSystemPrompt := fun _ _ => "sys"
  copyToClipboard := fun _ => .ok ()
  queryLlm := fun _ _ _ _ _ _ => .ok ⟨"r", "c", none⟩

/-- A parsed request carrying a non-empty thread id. -/
def argsWithThread : HandlerArgs :=
  ⟨none, "p", none, false, "m", some "t", "general", true⟩

/-- A parsed request carrying a present-but-empty thread id. -/
def argsWithEmptyThread : HandlerArgs :=
  ⟨none, "p", none, false, "m", some "", "general", true⟩

/-! ## General lemmas -/

/-- The sublist scan agrees with the contiguous-sublist relation. -/
theorem hasSubList_spec (sub hay : List Char) :
    hasSubList sub hay = true ↔ sub <:+: hay := by
  induction hay with
  | nil => simp [hasSubList, List.isPrefixOf_iff_prefix]
  | cons a t ih =>
    simp [hasSubList, List.isPrefixOf_iff_prefix, List.infix_cons_iff, ih]

/-- String inclusion agrees with the contiguous-sublist relation on the
character lists. -/
theorem jsIncludes_spec (s sub : String) :
    jsIncludes s sub = true ↔ sub.data <:+: s.data := by
  exact hasSubList_spec sub.data s.data

/-- A truthy optional string is a present, non-empty one. -/
theorem optTruthy_eq_true_iff (o : Option String) :
    optTruthy o = true ↔ ∃ t, o = some t ∧ t ≠ "" := by
  cases o with
  | none => simp [optTruthy]
  | some s => simp [optTruthy]

/-! ## C1: prompt composition on resumed turns -/

/-- C1 (amended): whenever a non-empty threadId is supplied to execute, the
codex, gemini and cursor executors compose the child-process prompt as the
user message with the file references appended exactly as on a fresh turn
and without the system prompt; the agent executor, by contrast, passes the
bare user prompt on a resumed turn, dropping the file references along with
the system prompt. -/
theorem resumed_turn_prompt_composition :
    ∀ (rel : String → String) (prompt systemPrompt : String)
      (filePaths : Option (List String)) (t : String), t ≠ "" →
      codexFullPrompt rel prompt systemPrompt filePaths (some t) =
        codexAppendFiles rel prompt filePaths ∧
      geminiMessage rel prompt systemPrompt filePaths (some t) =
        geminiAppendFiles rel prompt filePaths ∧
      cursorMessage rel prompt systemPrompt filePaths (some t) =
        cursorAppendFiles rel prompt filePaths ∧
      agentMessage rel prompt systemPrompt filePaths (some t) = prompt := by
  intro rel prompt systemPrompt filePaths t ht
  refine ⟨?_, ?_, ?_, ?_⟩ <;>
    simp [codexFullPrompt, geminiMessage, cursorMessage, agentMessage, optTruthy, ht]

/-- Witness for C1 at a concrete resumed request with one file. -/
theorem resumed_turn_prompt_composition_witness :
    codexFullPrompt id "p" "s" (some ["f.ts"]) (some "t1") =
        codexAppendFiles id "p" (some ["f.ts"]) ∧
      geminiMessage id "p" "s" (some ["f.ts"]) (some "t1") =
        geminiAppendFiles id "p" (some ["f.ts"]) ∧
      cursorMessage id "p" "s" (some ["f.ts"]) (some "t1") =
        cursorAppendFiles id "p" (some ["f.ts"]) ∧
      agentMessage id "p" "s" (some ["f.ts"]) (some "t1") = "p" :=
  resumed_turn_prompt_composition id "p" "s" (some ["f.ts"]) "t1" (by decide)

/-- C1 counterexample to the claim as stated: on a resumed turn of the agent
executor with a non-empty file list, the composed prompt is the bare user
prompt, not the prompt with the file references appended as on a fresh turn
(on a fresh turn the same file list yields the Please-read suffix). -/
theorem c1_agent_resume_drops_files :
    agentMessage id "p" "s" (some ["f.ts"]) (some "t1") = "p" ∧
    agentBuildFullPrompt id "p" "s" (some ["f.ts"]) =
      "s\n\np\n\nPlease read the following files for context:\n- f.ts" ∧
    (("p" : String) == "p\n\nPlease read the following files for context:\n- f.ts") = false :=
  ⟨rfl, rfl, rfl⟩

/-! ## C4: exit code 0 with no usable message is a failure -/

/-- C4: for every CLI executor variant, a child process that exits 0 with
stdout that parses but carries no usable message (no nonempty agent_message
text for codex; an empty-after-defaulting response or result field for
gemini, agent and cursor) makes execute fail with the variant's distinct
no-message error instead of resolving with an empty response. -/
theorem cli_zero_exit_without_message_fails :
    ∀ res : CliResult,
      (res.code = some 0 → (parseCodexJsonl res.stdout).response = "" →
        codexClose res = .error "No agent_message found in Codex JSONL output") ∧
      (res.code = some 0 → ∀ sid, parseGeminiJson res.stdout = some (sid, "") →
        geminiClose res = .error "No response found in Gemini JSON output") ∧
      (res.code = some 0 → ∀ sid, parseAgentJson res.stdout = some (sid, "") →
        agentClose res = .error "No result found in Agent CLI JSON output") ∧
      (res.code = some 0 → ∀ sid tid, parseCursorJson res.stdout = some (sid, "") →
        cursorClose tid res = .error "No result found in Cursor CLI JSON output") := by
  intro res
  refine ⟨?_, ?_, ?_, ?_⟩
  · intro hc hr
    simp [codexClose, hc, hr]
  · intro hc sid hp
    simp [geminiClose, hc, hp]
  · intro hc sid hp
    simp [agentClose, hc, hp]
  · intro hc sid tid hp
    simp [cursorClose, hc, hp]

/-- Witness for C4: the empty JSON object as stdout with exit code 0 makes
every variant fail with its no-message error. -/
theorem cli_zero_exit_without_message_fails_witness :
    codexClose ⟨"\x7b\x7d", "", some 0, 0⟩ =
      .error "No agent_message found in Codex JSONL output" ∧
    geminiClose ⟨"\x7b\x7d", "", some 0, 0⟩ =
      .error "No response found in Gemini JSON output" ∧
    agentClose ⟨"\x7b\x7d", "", some 0, 0⟩ =
      .error "No result found in Agent CLI JSON output" ∧
    cursorClose (some "t") ⟨"\x7b\x7d", "", some 0, 0⟩ =
      .error "No result found in Cursor CLI JSON output" :=
  ⟨(cli_zero_exit_without_message_fails _).1 rfl rfl,
   (cli_zero_exit_without_message_fails _).2.1 rfl none rfl,
   (cli_zero_exit_without_message_fails _).2.2.1 rfl none rfl,
   (cli_zero_exit_without_message_fails _).2.2.2 rfl none (some "t") rfl⟩

/-! ## C6: usage of the API executor -/

/-- C6 (amended): on every successful API execution the result passes the
completion's usage through unchanged: the counters are present exactly when
the completion carries them, and null otherwise. -/
theorem api_usage_passthrough :
    ∀ (client : ChatRequest → ChatCompletion) (prompt model systemPrompt : String)
      (filePaths : Option (List String)) (r : String),
      completionContent (client (apiRequest prompt model systemPrompt)) = some r →
      r ≠ "" →
      (apiExecute client prompt model systemPrompt filePaths).result =
        .ok ⟨r, (client (apiRequest prompt model systemPrompt)).usage, none⟩ := by
  intro client prompt model systemPrompt filePaths r hc hr
  simp [apiExecute, hc, hr]

/-- Witness for C6 at a concrete client returning usage counters. -/
theorem api_usage_passthrough_witness :
    completionContent
        ((fun _ => ⟨[⟨some ⟨some "4"⟩⟩], some ⟨10, 1, 11⟩⟩ :
          ChatRequest → ChatCompletion) (apiRequest "q" "m" "s")) = some "4" ∧
      (apiExecute (fun _ => ⟨[⟨some ⟨some "4"⟩⟩], some ⟨10, 1, 11⟩⟩) "q" "m" "s" none).result =
        .ok ⟨"4", some ⟨10, 1, 11⟩, none⟩ :=
  ⟨rfl, api_usage_passthrough _ "q" "m" "s" none "4" rfl (by decide)⟩

/-- C6 counterexample to the claim as stated: a completion whose first choice
has non-empty content but which carries no usage field succeeds with a null
usage, so usage is not always present on success. -/
theorem c6_usage_can_be_null_on_success :
    (apiExecute (fun _ => ⟨[⟨some ⟨some "ok"⟩⟩], none⟩) "p" "m" "s" none).result =
      .ok ⟨"ok", none, none⟩ ∧
    (ExecOut.usage ⟨"ok", none, none⟩).isSome = false :=
  ⟨rfl, rfl⟩

/-! ## C7: file paths never reach the API request -/

/-- C7: two API executions that differ only in the filePaths argument issue
the identical two-message request body and produce the identical result; a
non-empty filePaths argument produces exactly the warning diagnostic and
nothing else. -/
theorem api_files_only_warn :
    ∀ (client : ChatRequest → ChatCompletion) (prompt model systemPrompt : String)
      (fp1 fp2 : Option (List String)),
      (apiExecute client prompt model systemPrompt fp1).request =
        (apiExecute client prompt model systemPrompt fp2).request ∧
      (apiExecute client prompt model systemPrompt fp1).result =
        (apiExecute client prompt model systemPrompt fp2).result ∧
      ∀ fp, (apiExecute client prompt model systemPrompt fp).warnings =
        (if filesNonempty fp then [apiWarning model] else []) := by
  intro client prompt model systemPrompt fp1 fp2
  refine ⟨?_, ?_, ?_⟩
  · cases h : completionContent (client (apiRequest prompt model systemPrompt)) <;>
      simp [apiExecute, h] <;> split <;> rfl
  · cases h : completionContent (client (apiRequest prompt model systemPrompt)) <;>
      simp [apiExecute, h] <;> split <;> rfl
  · intro fp
    cases h : completionContent (client (apiRequest prompt model systemPrompt)) <;>
      simp [apiExecute, h] <;> split <;> rfl

/-! ## C10: cursor thread id fallback -/

/-- C10: when a threadId was supplied to the cursor executor and the CLI
exits 0 with a usable result but no session_id field, the returned threadId
is the caller-supplied one. -/
theorem cursor_resume_falls_back_to_request_thread :
    ∀ (res : CliResult) (tid resp : String), res.code = some 0 →
      parseCursorJson res.stdout = some (none, resp) → resp ≠ "" →
      cursorClose (some tid) res = .ok ⟨resp, none, some tid⟩ := by
  intro res tid resp hc hp hr
  simp [cursorClose, hc, hp, hr, jsNullish]

/-- Witness for C10 at a concrete output without a session id. -/
theorem cursor_resume_falls_back_to_request_thread_witness :
    parseCursorJson "\x7b\"result\":\"hi\"\x7d" = some (none, "hi") ∧
      cursorClose (some "t1") ⟨"\x7b\"result\":\"hi\"\x7d", "", some 0, 0⟩ =
        .ok ⟨"hi", none, some "t1"⟩ :=
  ⟨rfl, cursor_resume_falls_back_to_request_thread _ "t1" "hi" rfl rfl (by decide)⟩

/-! ## C3: codex JSON-Lines parsing -/

/-- The fold of the codex line scanner, characterised: the final thread id is
the last thread.started id (falling back to the accumulator) and the
messages are the accumulator followed by the agent_message texts in line
order. -/
theorem codexFold_characterized (lines : List String) :
    ∀ acc : Option String × List String,
      lines.foldl codexLineStep acc =
        (codexLastThread lines acc.1, acc.2 ++ codexMsgTexts lines) := by
  induction lines with
  | nil => intro acc; simp [codexLastThread, codexMsgTexts]
  | cons l ls ih =>
    intro acc
    simp only [List.foldl_cons]
    rw [ih]
    cases h : codexLineView l <;>
      simp [codexLineStep, codexLastThread, codexMsgTexts, h, List.filterMap_cons]

/-- C3 (amended): the codex JSON-Lines parser scans every newline-delimited
line independently; lines that are blank, fail to parse as JSON, or carry an
irrelevant or empty-text event contribute nothing (codexLineView sends
exactly those to skip, by definition), the thread id is the one of the last
thread.started event, and the response is the join, by newline and in event
order, of the texts of the item.completed agent_message events that carry a
non-empty text (empty-text agent_message events are skipped, not joined). -/
theorem codex_jsonl_parse_characterized :
    (∀ lines : List String,
      parseCodexJsonlLines lines =
        ⟨codexLastThread lines none,
          String.intercalate "\n" (codexMsgTexts lines)⟩) ∧
    ∀ output : String,
      parseCodexJsonl output =
        ⟨codexLastThread (jsSplitOn output '\n') none,
          String.intercalate "\n" (codexMsgTexts (jsSplitOn output '\n'))⟩ := by
  constructor
  · intro lines
    simp [parseCodexJsonlLines, codexFold_characterized lines (none, [])]
  · intro output
    simp [parseCodexJsonl, parseCodexJsonlLines,
      codexFold_characterized (jsSplitOn output '\n') (none, [])]

/-- C3 counterexample to the claim as stated: an output interleaving two
item.completed agent_message events (texts a and the empty string) with one
non-JSON line. Joining the two event texts with a newline gives a newline at
the end, but the parser skips the empty-text event and returns just a, so
the response does not equal the N texts joined by newline. -/
theorem c3_empty_text_event_breaks_join :
    jsonParse "\x7b\"type\":\"item.completed\",\"item\":\x7b\"type\":\"agent_message\",\"text\":\"a\"\x7d\x7d" =
      some (.obj [("type", .str "item.completed"),
        ("item", .obj [("type", .str "agent_message"), ("text", .str "a")])]) ∧
    jsonParse "ERROR: stream restarted" = none ∧
    jsonParse "\x7b\"type\":\"item.completed\",\"item\":\x7b\"type\":\"agent_message\",\"text\":\"\"\x7d\x7d" =
      some (.obj [("type", .str "item.completed"),
        ("item", .obj [("type", .str "agent_message"), ("text", .str "")])]) ∧
    (parseCodexJsonl
        "\x7b\"type\":\"item.completed\",\"item\":\x7b\"type\":\"agent_message\",\"text\":\"a\"\x7d\x7d\nERROR: stream restarted\n\x7b\"type\":\"item.completed\",\"item\":\x7b\"type\":\"agent_message\",\"text\":\"\"\x7d\x7d").response =
      "a" ∧
    String.intercalate "\n" ["a", ""] = "a\n" ∧
    (("a" : String) == "a\n") = false :=
  ⟨rfl, rfl, rfl, rfl, rfl, rfl⟩

/-! ## C8: runner resolution policy -/

/-- C8: the process runner resolves every run in which the child closes,
carrying the (possibly non-zero) exit code and the accumulated stderr; its
promise rejects exactly for a spawn failure, and the rejection message names
the executable that could not be spawned. -/
theorem runcli_error_policy :
    ∀ (command : String) (args : List String),
      (∀ (events : List ChildEvent) (code : Int) (duration : Nat), code ≠ 0 →
        runCli command args ⟨events, .close (some code), duration⟩ =
          .ok ⟨collectOut events, collectErr events, some code, duration⟩) ∧
      (∀ (run : ChildRun) (e : String),
        runCli command args run = .error e ↔
          ∃ msg, run.termination = .spawnFail msg ∧ e = spawnFailMsg command msg) ∧
      (∀ (run : ChildRun) (e : String), runCli command args run = .error e →
        jsIncludes e command = true) := by
  intro command args
  have herr : ∀ (run : ChildRun) (e : String),
      runCli command args run = .error e ↔
        ∃ msg, run.termination = .spawnFail msg ∧ e = spawnFailMsg command msg := by
    intro run e
    cases run with
    | mk events termination duration =>
      cases termination with
      | close code => simp [runCli]
      | spawnFail msg => simp [runCli, eq_comm]
  refine ⟨?_, herr, ?_⟩
  · intro events code duration _
    rfl
  · intro run e h
    obtain ⟨msg, _, rfl⟩ := (herr run e).mp h
    rw [jsIncludes_spec]
    exact ⟨"Failed to spawn ".data,
      (" CLI. Is it installed and in PATH? Error: " ++ msg).data,
      by simp [spawnFailMsg, String.data_append, List.append_assoc]⟩

/-- Witness for C8: a run that closes with exit code 2 resolves with that
code and the collected stderr; a spawn failure rejects with the message
naming the executable. -/
theorem runcli_error_policy_witness :
    runCli "gemini" [] ⟨[.err "boom"], .close (some 2), 7⟩ =
      .ok ⟨collectOut [.err "boom"], collectErr [.err "boom"], some 2, 7⟩ ∧
    jsIncludes (spawnFailMsg "gemini" "ENOENT") "gemini" = true :=
  ⟨(runcli_error_policy "gemini" []).1 [.err "boom"] 2 7 (by decide),
   (runcli_error_policy "gemini" []).2.2 ⟨[], .spawnFail "ENOENT", 0⟩
     (spawnFailMsg "gemini" "ENOENT") rfl⟩

/-! ## C9: gemini quota error -/

/-- C9: when the gemini CLI exits non-zero with RESOURCE_EXHAUSTED in
stderr, execute fails with the quota-exceeded message, which contains the
words quota exceeded and differs from the generic exited-with-code message
for every exit code and stderr. -/
theorem gemini_quota_error_distinct :
    ∀ res : CliResult, res.code ≠ some 0 →
      jsIncludes res.stderr "RESOURCE_EXHAUSTED" = true →
      geminiClose res = .error (geminiQuotaMsg res.stderr) ∧
      jsIncludes (geminiQuotaMsg res.stderr) "quota exceeded" = true ∧
      ∀ (code : Option Int) (other : String),
        geminiQuotaMsg res.stderr ≠ geminiExitMsg code other := by
  intro res hc hq
  refine ⟨?_, ?_, ?_⟩
  · simp [geminiClose, hc, hq]
  · have h1 : ("quota exceeded".data) <:+:
        ("Gemini quota exceeded. Consider using gemini-2.0-flash model. Error: ".data) :=
      (hasSubList_spec _ _).mp (by decide)
    have h2 : ("quota exceeded".data) <:+:
        ("Gemini quota exceeded. Consider using gemini-2.0-flash model. Error: ".data ++
          (jsTrim res.stderr).data) :=
      h1.trans ⟨[], (jsTrim res.stderr).data, by simp⟩
    have h3 : (geminiQuotaMsg res.stderr).data =
        "Gemini quota exceeded. Consider using gemini-2.0-flash model. Error: ".data ++
          (jsTrim res.stderr).data := by
      simp [geminiQuotaMsg, String.data_append]
    rw [jsIncludes_spec, h3]
    exact h2
  · intro code other heq
    have hd := congrArg String.data heq
    simp [geminiQuotaMsg, geminiExitMsg, String.data_append, List.append_assoc] at hd

/-- Witness for C9 at a concrete failing run with quota-marker stderr. -/
theorem gemini_quota_error_distinct_witness :
    jsIncludes "x RESOURCE_EXHAUSTED y" "RESOURCE_EXHAUSTED" = true ∧
    geminiClose ⟨"", "x RESOURCE_EXHAUSTED y", some 1, 0⟩ =
      .error (geminiQuotaMsg "x RESOURCE_EXHAUSTED y") ∧
    jsIncludes (geminiQuotaMsg "x RESOURCE_EXHAUSTED y") "quota exceeded" = true :=
  ⟨by decide,
   (gemini_quota_error_distinct ⟨"", "x RESOURCE_EXHAUSTED y", some 1, 0⟩
     (by decide) (by decide)).1,
   (gemini_quota_error_distinct ⟨"", "x RESOURCE_EXHAUSTED y", some 1, 0⟩
     (by decide) (by decide)).2.1⟩

/-! ## C2: thread id against a threadless capability set -/

/-- C2 (amended): a parsed request carrying a non-empty thread_id whose
resolved executor lacks supportsThreads is rejected with the validation
error, with an empty effect trace: neither the queryLlm call (the only path
to an executor execute, a spawn or an HTTP request) nor the clipboard call
is issued. A present-but-empty thread_id is falsy in the source's truthiness
test and is not rejected. -/
theorem thread_capability_rejected_before_effects :
    ∀ (deps : HandlerDeps) (args : HandlerArgs) (ex : ExecView),
      optTruthy args.threadId = true →
      deps.resolve (handlerModel deps args) = .ok ex →
      ex.capabilities.supportsThreads = false →
      handleConsultLlm deps args =
        ([], .error (threadUnsupportedMsg (handlerModel deps args))) := by
  intro deps args ex ht hr hs
  simp [handleConsultLlm, hr, ht, hs]

/-- Witness for C2 at concrete collaborators resolving to a capability set
without thread support. -/
theorem thread_capability_rejected_before_effects_witness :
    optTruthy argsWithThread.threadId = true ∧
    handlerDepsNoThreads.resolve (handlerModel handlerDepsNoThreads argsWithThread) =
      .ok ⟨⟨false, false, false⟩⟩ ∧
    handleConsultLlm handlerDepsNoThreads argsWithThread =
      ([], .error (threadUnsupportedMsg "m")) :=
  ⟨rfl, rfl,
   thread_capability_rejected_before_effects handlerDepsNoThreads argsWithThread
     ⟨⟨false, false, false⟩⟩ rfl rfl rfl⟩

/-- C2 counterexample to the claim as stated: a request carrying the
present-but-empty thread_id (accepted by the schema) against an executor
with supportsThreads false is not rejected: the handler proceeds and issues
the query effect (inside which the executor execute call and the HTTP
request happen), returning success instead of the validation error. -/
theorem c2_empty_thread_id_not_rejected :
    argsWithEmptyThread.threadId = some "" ∧
    handlerDepsNoThreads.resolve (handlerModel handlerDepsNoThreads argsWithEmptyThread) =
      .ok ⟨⟨false, false, false⟩⟩ ∧
    handleConsultLlm handlerDepsNoThreads argsWithEmptyThread =
      ([.llmQuery "p" "m" none (some "") "general"], .ok "r") ∧
    (handleConsultLlm handlerDepsNoThreads argsWithEmptyThread).1.length = 1 ∧
    ((handleConsultLlm handlerDepsNoThreads argsWithEmptyThread).2.isOk) = true :=
  ⟨rfl, rfl, rfl, rfl, rfl⟩

/-! ## C5 supporting lemmas: cache-key analysis -/

/-- Unfolding of the startsWith test. -/
theorem jsStartsWith_iff (s p : String) :
    jsStartsWith s p = true ↔ ∃ t, p.data ++ t = s.data := by
  simp [jsStartsWith, List.isPrefixOf_iff_prefix, List.IsPrefix]

/-- Extending a string on the right preserves its prefixes. -/
theorem startsWith_of_data_append (p m : String) (rest : List Char)
    (h : jsStartsWith m p = true) (m' : String) (hm : m'.data = m.data ++ rest) :
    jsStartsWith m' p = true := by
  rw [jsStartsWith_iff] at h ⊢
  obtain ⟨t, ht⟩ := h
  exact ⟨t ++ rest, by rw [hm, ← ht, List.append_assoc]⟩

/-- The provider families are prefix-disjoint: a gpt model is not a gemini
model. -/
theorem gpt_not_gemini (m : String) (h : jsStartsWith m "gpt-" = true) :
    jsStartsWith m "gemini-" = false := by
  cases hg : jsStartsWith m "gemini-" with
  | false => rfl
  | true =>
    exfalso
    obtain ⟨t1, h1⟩ := (jsStartsWith_iff m "gpt-").mp h
    obtain ⟨t2, h2⟩ := (jsStartsWith_iff m "gemini-").mp hg
    rw [← h1] at h2
    simp at h2

/-- The provider families are prefix-disjoint: a gemini model is not a gpt
model. -/
theorem gemini_not_gpt (m : String) (h : jsStartsWith m "gemini-" = true) :
    jsStartsWith m "gpt-" = false := by
  cases hg : jsStartsWith m "gpt-" with
  | false => rfl
  | true => rw [gpt_not_gemini m hg] at h; cases h

/-- Strings are determined by their character lists. -/
theorem str_ext {a b : String} (h : a.data = b.data) : a = b := by
  cases a
  cases b
  exact congrArg String.mk h

/-- Character list of the cache key of a gpt model. -/
theorem cacheKey_data_gpt (cfg : LlmConfig) (m : String)
    (h : jsStartsWith m "gpt-" = true) :
    (cacheKey cfg m).data = m.data ++ ("-" ++ modeStr cfg.openaiMode).data := by
  have hg := gpt_not_gemini m h
  simp [cacheKey, h, hg, String.data_append]

/-- Character list of the cache key of a gemini model. -/
theorem cacheKey_data_gemini (cfg : LlmConfig) (m : String)
    (h : jsStartsWith m "gemini-" = true) :
    (cacheKey cfg m).data = m.data ++ ("-" ++ modeStr cfg.geminiMode).data := by
  have hg := gemini_not_gpt m h
  simp [cacheKey, h, hg, String.data_append]

/-- Character list of the cache key of a model outside the two multi-backend
families: the bare model id. -/
theorem cacheKey_data_other (cfg : LlmConfig) (m : String)
    (h1 : jsStartsWith m "gpt-" = false) (h2 : jsStartsWith m "gemini-" = false) :
    (cacheKey cfg m).data = m.data := by
  simp [cacheKey, h1, h2, String.data_append]

/-- Cancelling the four-character mode suffix of a cache key: equal keys of
suffixed form have equal stems and equal modes. -/
theorem append_modeSfx_inj (a b : List Char) (o o' : BackendMode)
    (h : a ++ ("-" ++ modeStr o).data = b ++ ("-" ++ modeStr o').data) :
    a = b ∧ o = o' := by
  have l1 : ("-" ++ modeStr o).data.length = 4 := by cases o <;> rfl
  have l2 : ("-" ++ modeStr o').data.length = 4 := by cases o' <;> rfl
  have hlen : a.length = b.length := by
    have hh := congrArg List.length h
    rw [List.length_append, List.length_append, l1, l2] at hh
    omega
  obtain ⟨h1, h2⟩ := List.append_inj h hlen
  refine ⟨h1, ?_⟩
  cases o <;> cases o' <;> first | rfl | (exfalso; revert h2; decide)

/-- Collision analysis against a gpt-model key: any (configuration, model)
pair producing the same cache key names the same model under the same openai
preference. -/
theorem cacheKey_collision_gpt (cfg cfg' : LlmConfig) (m m' : String)
    (hm' : jsStartsWith m' "gpt-" = true)
    (h : cacheKey cfg m = cacheKey cfg' m') :
    m = m' ∧ cfg.openaiMode = cfg'.openaiMode ∧ jsStartsWith m "gpt-" = true := by
  have hd := congrArg String.data h
  rw [cacheKey_data_gpt cfg' m' hm'] at hd
  cases hgpt : jsStartsWith m "gpt-" with
  | true =>
    rw [cacheKey_data_gpt cfg m hgpt] at hd
    obtain ⟨h1, h2⟩ := append_modeSfx_inj _ _ _ _ hd
    exact ⟨str_ext h1, h2, rfl⟩
  | false =>
    exfalso
    cases hgem : jsStartsWith m "gemini-" with
    | true =>
      rw [cacheKey_data_gemini cfg m hgem] at hd
      obtain ⟨h1, _⟩ := append_modeSfx_inj _ _ _ _ hd
      rw [str_ext h1, hm'] at hgpt
      cases hgpt
    | false =>
      rw [cacheKey_data_other cfg m hgpt hgem] at hd
      have hx := startsWith_of_data_append "gpt-" m' _ hm' m hd
      rw [hgpt] at hx
      cases hx

/-- Collision analysis against a gemini-model key. -/
theorem cacheKey_collision_gemini (cfg cfg' : LlmConfig) (m m' : String)
    (hm' : jsStartsWith m' "gemini-" = true)
    (h : cacheKey cfg m = cacheKey cfg' m') :
    m = m' ∧ cfg.geminiMode = cfg'.geminiMode ∧ jsStartsWith m "gemini-" = true := by
  have hd := congrArg String.data h
  rw [cacheKey_data_gemini cfg' m' hm'] at hd
  cases hgem : jsStartsWith m "gemini-" with
  | true =>
    rw [cacheKey_data_gemini cfg m hgem] at hd
    obtain ⟨h1, h2⟩ := append_modeSfx_inj _ _ _ _ hd
    exact ⟨str_ext h1, h2, rfl⟩
  | false =>
    exfalso
    cases hgpt : jsStartsWith m "gpt-" with
    | true =>
      rw [cacheKey_data_gpt cfg m hgpt] at hd
      obtain ⟨h1, _⟩ := append_modeSfx_inj _ _ _ _ hd
      rw [str_ext h1, hm'] at hgem
      cases hgem
    | false =>
      rw [cacheKey_data_other cfg m hgpt hgem] at hd
      have hx := startsWith_of_data_append "gemini-" m' _ hm' m hd
      rw [hgem] at hx
      cases hx

/-- Collision analysis against the key of a model outside the multi-backend
families. -/
theorem cacheKey_collision_other (cfg cfg' : LlmConfig) (m m' : String)
    (hm'1 : jsStartsWith m' "gpt-" = false) (hm'2 : jsStartsWith m' "gemini-" = false)
    (h : cacheKey cfg m = cacheKey cfg' m') :
    m = m' ∧ jsStartsWith m "gpt-" = false ∧ jsStartsWith m "gemini-" = false := by
  have hd := congrArg String.data h
  rw [cacheKey_data_other cfg' m' hm'1 hm'2] at hd
  cases hgpt : jsStartsWith m "gpt-" with
  | true =>
    exfalso
    rw [cacheKey_data_gpt cfg m hgpt] at hd
    have hx := startsWith_of_data_append "gpt-" m _ hgpt m' hd.symm
    rw [hm'1] at hx
    cases hx
  | false =>
    cases hgem : jsStartsWith m "gemini-" with
    | true =>
      exfalso
      rw [cacheKey_data_gemini cfg m hgem] at hd
      have hx := startsWith_of_data_append "gemini-" m _ hgem m' hd.symm
      rw [hm'2] at hx
      cases hx
    | false =>
      rw [cacheKey_data_other cfg m hgpt hgem] at hd
      exact ⟨str_ext hd, rfl, rfl⟩

/-! ## C5 supporting lemmas: resolver behaviour -/

/-- Building the variant constraint for a gpt model. -/
theorem familyKindOk_build_gpt (cfg : LlmConfig) (m : String) (k : ExecutorKind)
    (hm : jsStartsWith m "gpt-" = true)
    (hcli : cfg.openaiMode = .cli → k = .codexCli)
    (hapi : cfg.openaiMode = .api → ∃ c, k = .api c) :
    familyKindOk cfg m k := by
  refine ⟨fun _ => ⟨hcli, hapi⟩, fun hgem => ?_, fun hgpt' => ?_⟩
  · rw [gpt_not_gemini m hm] at hgem
    cases hgem
  · rw [hm] at hgpt'
    cases hgpt'

/-- Building the variant constraint for a gemini model. -/
theorem familyKindOk_build_gemini (cfg : LlmConfig) (m : String) (k : ExecutorKind)
    (hm : jsStartsWith m "gemini-" = true)
    (hcli : cfg.geminiMode = .cli → k = .geminiCli)
    (hapi : cfg.geminiMode = .api → ∃ c, k = .api c) :
    familyKindOk cfg m k := by
  refine ⟨fun hgpt' => ?_, fun _ => ⟨hcli, hapi⟩, fun _ hgem' => ?_⟩
  · rw [gemini_not_gpt m hm] at hgpt'
    cases hgpt'
  · rw [hm] at hgem'
    cases hgem'

/-- Building the variant constraint for a model of neither multi-backend
family. -/
theorem familyKindOk_build_other (cfg : LlmConfig) (m : String) (k : ExecutorKind)
    (hm1 : jsStartsWith m "gpt-" = false) (hm2 : jsStartsWith m "gemini-" = false)
    (hk : ∃ c, k = .api c) :
    familyKindOk cfg m k := by
  refine ⟨fun hg => ?_, fun hg => ?_, fun _ _ _ => hk⟩
  · rw [hm1] at hg
    cases hg
  · rw [hm2] at hg
    cases hg

/-- The variant constraint transports along cache-key equality from a gpt
model. -/
theorem familyKindOk_transport_gpt (cfg₀ : LlmConfig) (m₀ : String) (k : ExecutorKind)
    (hm : jsStartsWith m₀ "gpt-" = true)
    (hcli : cfg₀.openaiMode = .cli → k = .codexCli)
    (hapi : cfg₀.openaiMode = .api → ∃ c, k = .api c) :
    ∀ (cfg : LlmConfig) (m : String), cacheKey cfg m = cacheKey cfg₀ m₀ →
      familyKindOk cfg m k := by
  intro cfg m hkey
  obtain ⟨heq, hmode, hgpt⟩ := cacheKey_collision_gpt cfg cfg₀ m m₀ hm hkey
  refine familyKindOk_build_gpt cfg m k hgpt (fun hx => hcli ?_) (fun hx => hapi ?_)
  · rw [← hmode]
    exact hx
  · rw [← hmode]
    exact hx

/-- The variant constraint transports along cache-key equality from a gemini
model. -/
theorem familyKindOk_transport_gemini (cfg₀ : LlmConfig) (m₀ : String) (k : ExecutorKind)
    (hm : jsStartsWith m₀ "gemini-" = true)
    (hcli : cfg₀.geminiMode = .cli → k = .geminiCli)
    (hapi : cfg₀.geminiMode = .api → ∃ c, k = .api c) :
    ∀ (cfg : LlmConfig) (m : String), cacheKey cfg m = cacheKey cfg₀ m₀ →
      familyKindOk cfg m k := by
  intro cfg m hkey
  obtain ⟨heq, hmode, hgem⟩ := cacheKey_collision_gemini cfg cfg₀ m m₀ hm hkey
  refine familyKindOk_build_gemini cfg m k hgem (fun hx => hcli ?_) (fun hx => hapi ?_)
  · rw [← hmode]
    exact hx
  · rw [← hmode]
    exact hx

/-- The variant constraint transports along cache-key equality from a model
of neither multi-backend family. -/
theorem familyKindOk_transport_other (cfg₀ : LlmConfig) (m₀ : String) (k : ExecutorKind)
    (hm1 : jsStartsWith m₀ "gpt-" = false) (hm2 : jsStartsWith m₀ "gemini-" = false)
    (hk : ∃ c, k = .api c) :
    ∀ (cfg : LlmConfig) (m : String), cacheKey cfg m = cacheKey cfg₀ m₀ →
      familyKindOk cfg m k := by
  intro cfg m hkey
  obtain ⟨heq, h1, h2⟩ := cacheKey_collision_other cfg cfg₀ m m₀ hm1 hm2 hkey
  exact familyKindOk_build_other cfg m k h1 h2 hk

/-- Consing a consistent entry onto a consistent cache keeps it
consistent. -/
theorem cacheConsistent_cons (s : ResolverState) (key : String) (e₀ : ExecutorInst)
    (clientCache' : List (String × OpenAIClient)) (nextId' : Nat)
    (hs : cacheConsistent s)
    (hkey : ∀ (cfg : LlmConfig) (m : String), cacheKey cfg m = key →
      familyKindOk cfg m e₀.kind) :
    cacheConsistent ⟨(key, e₀) :: s.executorCache, clientCache', nextId'⟩ := by
  intro cfg m e hl
  simp only [List.lookup] at hl
  cases hbeq : (cacheKey cfg m == key) with
  | true =>
    rw [hbeq] at hl
    simp only [Option.some.injEq] at hl
    rw [← hl]
    exact hkey cfg m (eq_of_beq hbeq)
  | false =>
    rw [hbeq] at hl
    exact hs cfg m e hl

/-- Looking the freshly inserted key up yields the fresh instance. -/
theorem lookup_insertExecutor (key : String) (kind : ExecutorKind) (s : ResolverState) :
    ((insertExecutor key kind s).2).executorCache.lookup key =
      some (insertExecutor key kind s).1 := by
  simp [insertExecutor, List.lookup]

/-- The OpenAI client getter never touches the executor cache or the
allocation counter. -/
theorem getOpenAIClient_preserves (cfg : LlmConfig) (s : ResolverState)
    (c : OpenAIClient) (s1 : ResolverState)
    (h : getOpenAIClient cfg s = .ok (c, s1)) :
    s1.executorCache = s.executorCache ∧ s1.nextId = s.nextId := by
  unfold getOpenAIClient at h
  cases hl : s.clientCache.lookup "openai" with
  | some c0 =>
    simp only [hl] at h
    have h2 : c0 = c ∧ s = s1 := by simpa using h
    rw [← h2.2]
    exact ⟨rfl, rfl⟩
  | none =>
    simp only [hl] at h
    split at h
    · simp only [Except.ok.injEq, Prod.mk.injEq] at h
      rw [← h.2]
      exact ⟨rfl, rfl⟩
    · cases h

/-- The DeepSeek client getter never touches the executor cache or the
allocation counter. -/
theorem getDeepseekClient_preserves (cfg : LlmConfig) (s : ResolverState)
    (c : OpenAIClient) (s1 : ResolverState)
    (h : getDeepseekClient cfg s = .ok (c, s1)) :
    s1.executorCache = s.executorCache ∧ s1.nextId = s.nextId := by
  unfold getDeepseekClient at h
  cases hl : s.clientCache.lookup "deepseek" with
  | some c0 =>
    simp only [hl] at h
    have h2 : c0 = c ∧ s = s1 := by simpa using h
    rw [← h2.2]
    exact ⟨rfl, rfl⟩
  | none =>
    simp only [hl] at h
    split at h
    · simp only [Except.ok.injEq, Prod.mk.injEq] at h
      rw [← h.2]
      exact ⟨rfl, rfl⟩
    · cases h

/-- The Gemini API client getter never touches the executor cache or the
allocation counter. -/
theorem getGeminiApiClient_preserves (cfg : LlmConfig) (s : ResolverState)
    (c : OpenAIClient) (s1 : ResolverState)
    (h : getGeminiApiClient cfg s = .ok (c, s1)) :
    s1.executorCache = s.executorCache ∧ s1.nextId = s.nextId := by
  unfold getGeminiApiClient at h
  cases hl : s.clientCache.lookup "geminiApi" with
  | some c0 =>
    simp only [hl] at h
    have h2 : c0 = c ∧ s = s1 := by simpa using h
    rw [← h2.2]
    exact ⟨rfl, rfl⟩
  | none =>
    simp only [hl] at h
    split at h
    · simp only [Except.ok.injEq, Prod.mk.injEq] at h
      rw [← h.2]
      exact ⟨rfl, rfl⟩
    · cases h

/-- A cache hit short-circuits resolution. -/
theorem lookup_some_resolve (cfg : LlmConfig) (model : String) (s : ResolverState)
    (e : ExecutorInst)
    (hl : s.executorCache.lookup (cacheKey cfg model) = some e) :
    getExecutorForModel cfg model s = .ok (e, s) := by
  simp [getExecutorForModel, hl]

/-- The provider families are prefix-disjoint: a deepseek model is not a
gemini model. -/
theorem deepseek_not_gemini (m : String) (h : jsStartsWith m "deepseek-" = true) :
    jsStartsWith m "gemini-" = false := by
  cases hg : jsStartsWith m "gemini-" with
  | false => rfl
  | true =>
    exfalso
    obtain ⟨t1, h1⟩ := (jsStartsWith_iff m "deepseek-").mp h
    obtain ⟨t2, h2⟩ := (jsStartsWith_iff m "gemini-").mp hg
    rw [← h1] at h2
    simp at h2

/-- Full specification of a successful resolution: the returned instance is
the one now cached under the request's key, and under a consistent starting
cache the instance's variant matches the current configuration for the
model's family, with consistency preserved. -/
theorem resolve_ok_spec (cfg : LlmConfig) (model : String) (s : ResolverState)
    (e : ExecutorInst) (s' : ResolverState)
    (h : getExecutorForModel cfg model s = .ok (e, s')) :
    s'.executorCache.lookup (cacheKey cfg model) = some e ∧
    (cacheConsistent s → familyKindOk cfg model e.kind ∧ cacheConsistent s') := by
  unfold getExecutorForModel at h
  cases hl : s.executorCache.lookup (cacheKey cfg model) with
  | some e0 =>
    simp only [hl, Except.ok.injEq, Prod.mk.injEq] at h
    obtain ⟨he, hs⟩ := h
    rw [← he, ← hs]
    exact ⟨hl, fun inv => ⟨inv cfg model e0 hl, inv⟩⟩
  | none =>
    simp only [hl] at h
    split at h
    · -- gpt family
      rename_i hgpt
      split at h
      · -- openai preference cli
        rename_i hcm
        simp only [insertExecutor, Except.ok.injEq, Prod.mk.injEq] at h
        obtain ⟨he, hs⟩ := h
        refine ⟨?_, fun inv => ⟨?_, ?_⟩⟩
        · rw [← hs, ← he]
          simp [List.lookup]
        · rw [← he]
          exact familyKindOk_build_gpt cfg model _ hgpt (fun _ => rfl)
            (fun hx => by rw [hcm] at hx; cases hx)
        · rw [← hs]
          exact cacheConsistent_cons s (cacheKey cfg model) _ _ _ inv
            (familyKindOk_transport_gpt cfg model _ hgpt (fun _ => rfl)
              (fun hx => by rw [hcm] at hx; cases hx))
      · -- openai preference api
        rename_i hcm
        split at h
        · exact Except.noConfusion h
        · rename_i c s1 hoc
          have hpre := getOpenAIClient_preserves cfg s c s1 hoc
          simp only [insertExecutor, Except.ok.injEq, Prod.mk.injEq] at h
          obtain ⟨he, hs⟩ := h
          refine ⟨?_, fun inv => ⟨?_, ?_⟩⟩
          · rw [← hs, ← he]
            simp [List.lookup]
          · rw [← he]
            exact familyKindOk_build_gpt cfg model _ hgpt
              (fun hx => by rw [hcm] at hx; cases hx) (fun _ => ⟨c, rfl⟩)
          · rw [← hs, hpre.1]
            exact cacheConsistent_cons s (cacheKey cfg model) _ _ _ inv
              (familyKindOk_transport_gpt cfg model _ hgpt
                (fun hx => by rw [hcm] at hx; cases hx) (fun _ => ⟨c, rfl⟩))
    · -- not gpt
      rename_i hngpt
      split at h
      · -- deepseek family
        rename_i hds
        split at h
        · exact Except.noConfusion h
        · rename_i c s1 hoc
          have hpre := getDeepseekClient_preserves cfg s c s1 hoc
          simp only [insertExecutor, Except.ok.injEq, Prod.mk.injEq] at h
          obtain ⟨he, hs⟩ := h
          have hngpt' : jsStartsWith model "gpt-" = false := by
            simpa using hngpt
          have hngem : jsStartsWith model "gemini-" = false :=
            deepseek_not_gemini model hds
          refine ⟨?_, fun inv => ⟨?_, ?_⟩⟩
          · rw [← hs, ← he]
            simp [List.lookup]
          · rw [← he]
            exact familyKindOk_build_other cfg model _ hngpt' hngem ⟨c, rfl⟩
          · rw [← hs, hpre.1]
            exact cacheConsistent_cons s (cacheKey cfg model) _ _ _ inv
              (familyKindOk_transport_other cfg model _ hngpt' hngem ⟨c, rfl⟩)
      · -- not deepseek
        rename_i hnds
        split at h
        · -- gemini family
          rename_i hgem
          split at h
          · -- gemini preference cli
            rename_i hcm
            simp only [insertExecutor, Except.ok.injEq, Prod.mk.injEq] at h
            obtain ⟨he, hs⟩ := h
            refine ⟨?_, fun inv => ⟨?_, ?_⟩⟩
            · rw [← hs, ← he]
              simp [List.lookup]
            · rw [← he]
              exact familyKindOk_build_gemini cfg model _ hgem (fun _ => rfl)
                (fun hx => by rw [hcm] at hx; cases hx)
            · rw [← hs]
              exact cacheConsistent_cons s (cacheKey cfg model) _ _ _ inv
                (familyKindOk_transport_gemini cfg model _ hgem (fun _ => rfl)
                  (fun hx => by rw [hcm] at hx; cases hx))
          · -- gemini preference api
            rename_i hcm
            split at h
            · exact Except.noConfusion h
            · rename_i c s1 hoc
              have hpre := getGeminiApiClient_preserves cfg s c s1 hoc
              simp only [insertExecutor, Except.ok.injEq, Prod.mk.injEq] at h
              obtain ⟨he, hs⟩ := h
              refine ⟨?_, fun inv => ⟨?_, ?_⟩⟩
              · rw [← hs, ← he]
                simp [List.lookup]
              · rw [← he]
                exact familyKindOk_build_gemini cfg model _ hgem
                  (fun hx => by rw [hcm] at hx; cases hx) (fun _ => ⟨c, rfl⟩)
              · rw [← hs, hpre.1]
                exact cacheConsistent_cons s (cacheKey cfg model) _ _ _ inv
                  (familyKindOk_transport_gemini cfg model _ hgem
                    (fun hx => by rw [hcm] at hx; cases hx) (fun _ => ⟨c, rfl⟩))
        · exact Except.noConfusion h

/-! ## C5: resolver determinism and cache keying -/

/-- C5 (amended): resolution is idempotent and serves cached instances (a
second resolution of the same model under the same configuration returns the
identical instance and leaves the state unchanged); the cache key determines
the configured backend preference for both multi-backend families (openai
and gemini), so an executor cached under one preference is never served
under another: any successful resolution returns an executor whose variant
matches the current configuration for the model's family, and this is
preserved from the empty cache through any sequence of resolutions. Every
catalog model except o3 resolves under a fully-credentialed configuration;
o3, still listed in the catalog, matches no provider family of this
resolver. -/
theorem resolver_cache_coherent :
    (∀ (cfg : LlmConfig) (model : String) (s : ResolverState)
      (e : ExecutorInst) (s' : ResolverState),
      getExecutorForModel cfg model s = .ok (e, s') →
      getExecutorForModel cfg model s' = .ok (e, s')) ∧
    (∀ (cfg cfg' : LlmConfig) (model : String),
      jsStartsWith model "gpt-" = true → cacheKey cfg model = cacheKey cfg' model →
      cfg.openaiMode = cfg'.openaiMode) ∧
    (∀ (cfg cfg' : LlmConfig) (model : String),
      jsStartsWith model "gemini-" = true → cacheKey cfg model = cacheKey cfg' model →
      cfg.geminiMode = cfg'.geminiMode) ∧
    (∀ (cfg : LlmConfig) (model : String) (s : ResolverState)
      (e : ExecutorInst) (s' : ResolverState),
      cacheConsistent s → getExecutorForModel cfg model s = .ok (e, s') →
      familyKindOk cfg model e.kind ∧ cacheConsistent s') ∧
    cacheConsistent initResolverState ∧
    (∀ o g : BackendMode, ∀ m ∈ ALL_MODELS, m ≠ "o3" →
      resolvesFrom ⟨some "sk-openai", some "sk-gemini", some "sk-deepseek", o, g⟩ m
        initResolverState = true) := by
  refine ⟨?_, ?_, ?_, ?_, ?_, ?_⟩
  · intro cfg model s e s' h
    exact lookup_some_resolve cfg model s' e (resolve_ok_spec cfg model s e s' h).1
  · intro cfg cfg' model hm hkey
    exact (cacheKey_collision_gpt cfg cfg' model model hm hkey).2.1
  · intro cfg cfg' model hm hkey
    exact (cacheKey_collision_gemini cfg cfg' model model hm hkey).2.1
  · intro cfg model s e s' inv h
    exact (resolve_ok_spec cfg model s e s' h).2 inv
  · intro cfg m e hl
    simp [initResolverState, List.lookup] at hl
  · intro o g
    cases o <;> cases g <;> decide

/-- Witness for C5: resolving gpt-5.2 under the cli preference from the
empty cache constructs the codex executor with allocation id 0, and
resolving again returns the identical cached instance with the state
unchanged. -/
theorem resolver_cache_coherent_witness :
    getExecutorForModel cfgCliCli "gpt-5.2" initResolverState =
      .ok (⟨.codexCli, 0⟩, ⟨[("gpt-5.2-cli", ⟨.codexCli, 0⟩)], [], 1⟩) ∧
    getExecutorForModel cfgCliCli "gpt-5.2" ⟨[("gpt-5.2-cli", ⟨.codexCli, 0⟩)], [], 1⟩ =
      .ok (⟨.codexCli, 0⟩, ⟨[("gpt-5.2-cli", ⟨.codexCli, 0⟩)], [], 1⟩) :=
  ⟨rfl,
   resolver_cache_coherent.1 cfgCliCli "gpt-5.2" initResolverState
     ⟨.codexCli, 0⟩ ⟨[("gpt-5.2-cli", ⟨.codexCli, 0⟩)], [], 1⟩ rfl⟩

/-- C5 counterexample to the claim as stated: the catalog still lists o3,
but the resolver recognises no provider family for it, so no executor
instance (cached or fresh) is ever returned for this catalog model;
resolution fails deterministically with the unknown-provider error. -/
theorem c5_o3_in_catalog_never_resolves :
    "o3" ∈ ALL_MODELS ∧
    getExecutorForModel cfgCliCli "o3" initResolverState =
      .error "Unable to determine LLM provider for model: o3" :=
  ⟨by decide, rfl⟩

end ConsultLlm
